import Mathlib

/-!
Shallow embedding of the session-correlation core of the
`claude-code-telegram-notify` server (`server/src/claude_notify/`):
the in-memory `SessionStore` (store.py), the input classifier of the
Telegram bot (bot.py), and the HTTP endpoint bodies (main.py).

Python dicts are modelled as insertion-ordered association lists
(`dictGet` / `dictSet` / `dictPop`), which reproduces `dict` lookup,
in-place update, append-on-new-key and `.values()` iteration order.
`datetime.now()` is modelled by an explicit integer timestamp argument
`now` supplied to every operation that reads the clock.  Fallible
collaborator calls (Telegram sends) are modelled as explicit
`Except` / `Bool` parameters describing the platform's outcome.
-/

namespace ClaudeNotify

section Dict

variable {K V : Type} [DecidableEq K]

/-- `d.get(k)`: first binding of `k` in the association list. -/
def dictGet : List (K × V) → K → Option V
  | [], _ => none
  | p :: rest, k => if p.1 = k then some p.2 else dictGet rest k

/-- `d[k] = v`: replace the binding in place if present, else append. -/
def dictSet : List (K × V) → K → V → List (K × V)
  | [], k, v => [(k, v)]
  | p :: rest, k, v => if p.1 = k then (k, v) :: rest else p :: dictSet rest k v

/-- `d.pop(k, None)`'s effect on the dict: drop the binding of `k`. -/
def dictPop (d : List (K × V)) (k : K) : List (K × V) :=
  d.filter (fun p => !decide (p.1 = k))

/-- `d.values()` in insertion order. -/
def dictValues (d : List (K × V)) : List V :=
  d.map Prod.snd

end Dict

/-- models.py `ActionType`. -/
inductive ActionType where
  | CONTINUE
  | DONE
  | CANCEL
deriving DecidableEq, Repr

/-- models.py `StatusType`. -/
inductive StatusType where
  | COMPLETED
  | PERMISSION
  | IDLE
deriving DecidableEq, Repr

/-- models.py `SessionData`. -/
structure SessionData where
  session_id : String
  chat_id : Int
  message_id : Option Int := none
  thread_id : Option Int := none
  cwd : String
  pending_reply : Option String := none
  action : Option ActionType := none
  created_at : Int
  updated_at : Int
  related_message_ids : List Int := []
deriving DecidableEq, Repr

/-- store.py `SessionStore`: primary map `_sessions` plus the secondary
thread index `_thread_to_session`.  The lock only serialises operations;
in this sequential model each operation is a whole-store function. -/
structure SessionStore where
  sessions : List (String × SessionData)
  thread_to_session : List (Int × String)
deriving DecidableEq, Repr

/-- `SessionStore.__init__`. -/
def emptyStore : SessionStore := ⟨[], []⟩

/-- store.py `create_session`: returns the (possibly pre-existing)
record together with the updated store. -/
def create_session (st : SessionStore) (now : Int) (session_id : String)
    (chat_id : Int) (cwd : String) : SessionData × SessionStore :=
  match dictGet st.sessions session_id with
  | some session =>
      let session' := { session with updated_at := now }
      (session', { st with sessions := dictSet st.sessions session_id session' })
  | none =>
      let session : SessionData :=
        { session_id := session_id, chat_id := chat_id, cwd := cwd,
          created_at := now, updated_at := now }
      (session, { st with sessions := dictSet st.sessions session_id session })

/-- store.py `get_session`. -/
def get_session (st : SessionStore) (session_id : String) : Option SessionData :=
  dictGet st.sessions session_id

/-- store.py `update_thread_id` (signature `(session_id, message_id,
thread_id)`; there is no `chat_id` parameter in store.py). -/
def update_thread_id (st : SessionStore) (now : Int) (session_id : String)
    (message_id thread_id : Int) : SessionStore :=
  match dictGet st.sessions session_id with
  | some session =>
      let session' := { session with
        message_id := some message_id,
        thread_id := some thread_id,
        updated_at := now }
      { sessions := dictSet st.sessions session_id session',
        thread_to_session := dictSet st.thread_to_session thread_id session_id }
  | none => st

/-- store.py `set_reply`. -/
def set_reply (st : SessionStore) (now : Int) (session_id : String)
    (reply : String) (action : ActionType) : SessionStore :=
  match dictGet st.sessions session_id with
  | some session =>
      let session' := { session with
        pending_reply := some reply,
        action := some action,
        updated_at := now }
      { st with sessions := dictSet st.sessions session_id session' }
  | none => st

/-- store.py `clear_reply`. -/
def clear_reply (st : SessionStore) (now : Int) (session_id : String) :
    SessionStore :=
  match dictGet st.sessions session_id with
  | some session =>
      let session' := { session with
        pending_reply := none,
        action := none,
        updated_at := now }
      { st with sessions := dictSet st.sessions session_id session' }
  | none => st

/-- store.py `get_session_by_thread`.  Python's `if session_id:` treats
the empty string as falsy, hence the extra guard. -/
def get_session_by_thread (st : SessionStore) (thread_id : Int) :
    Option SessionData :=
  match dictGet st.thread_to_session thread_id with
  | some session_id =>
      if session_id = "" then none else dictGet st.sessions session_id
  | none => none

/-- Body of the per-id loop of store.py `cleanup_expired` and of
`delete_session`: `self._sessions.pop(sid, None)`, then prune the
thread index when the popped record's `thread_id` is truthy
(Python's `if session.thread_id:` is false for `None` and for `0`). -/
def removeSession (st : SessionStore) (session_id : String) : SessionStore :=
  match dictGet st.sessions session_id with
  | some session =>
      { sessions := dictPop st.sessions session_id,
        thread_to_session :=
          match session.thread_id with
          | some t => if t = 0 then st.thread_to_session
                      else dictPop st.thread_to_session t
          | none => st.thread_to_session }
  | none => { st with sessions := dictPop st.sessions session_id }

/-- store.py `cleanup_expired`: returns `(removed, store)`. -/
def cleanup_expired (st : SessionStore) (now : Int) (expiry_seconds : Int) :
    Nat × SessionStore :=
  let cutoff := now - expiry_seconds
  let expired_ids :=
    (st.sessions.filter (fun p => decide (p.2.created_at < cutoff))).map Prod.fst
  (expired_ids.length, expired_ids.foldl removeSession st)

/-- store.py `list_waiting_sessions`: note the condition is
`session.chat_id == chat_id and session.pending_reply is None`
(there is no `chat_id == 0` disjunct in store.py). -/
def list_waiting_sessions (st : SessionStore) (chat_id : Int) :
    List SessionData :=
  (dictValues st.sessions).filter
    (fun session => decide (session.chat_id = chat_id) && session.pending_reply.isNone)

/-- store.py `delete_session`: returns `(removed?, store)`. -/
def delete_session (st : SessionStore) (session_id : String) :
    Bool × SessionStore :=
  ((dictGet st.sessions session_id).isSome, removeSession st session_id)

/-- Modelled from the spec: `SessionStore.update_chat_id` is absent from
src `store.py` even though bot.py calls it and tests/test_bot.py tests it.
Spec §4.1: "sets `chatId` **only if** the current value is `0`; otherwise
a no-op"; total, never raises (spec §7: every store operation is total). -/
def update_chat_id (st : SessionStore) (session_id : String) (chat_id : Int) :
    SessionStore :=
  match dictGet st.sessions session_id with
  | some session =>
      if session.chat_id = 0 then
        { st with sessions :=
            dictSet st.sessions session_id { session with chat_id := chat_id } }
      else st
  | none => st

/-- Python `str.strip()` whitespace class restricted to the ASCII
whitespace characters (space, `\t`, `\n`, `\r`, `\x0b`, `\x0c`). -/
def isPySpace (c : Char) : Bool :=
  c == ' ' || c == '\t' || c == '\n' || c == '\r' || c.val == 11 || c.val == 12

/-- Python `str.strip()`: drop whitespace from both ends. -/
def pyStrip (s : String) : String :=
  String.mk (((s.data.dropWhile isPySpace).reverse.dropWhile isPySpace).reverse)

/-- Python `str.lower()` modelled on the ASCII range (the keyword
comparisons in bot.py only distinguish ASCII case). -/
def pyLower (s : String) : String :=
  String.mk (s.data.map Char.toLower)

/-- The completion keyword list of bot.py `parse_user_input`. -/
def doneKeywords : List String :=
  ["/done", "done", "结束"]

/-- The cancellation keyword list of bot.py `parse_user_input`. -/
def cancelKeywords : List String :=
  ["/cancel", "cancel", "取消", "no", "拒绝"]

/-- bot.py `parse_user_input`: strip, then case-insensitive keyword
matching; the returned payload is the stripped text. -/
def parse_user_input (text : String) : ActionType × String :=
  let text := pyStrip text
  if pyLower text ∈ doneKeywords then (ActionType.DONE, text)
  else if pyLower text ∈ cancelKeywords then (ActionType.CANCEL, text)
  else (ActionType.CONTINUE, text)

/-- models.py `NotifyRequest`. -/
structure NotifyRequest where
  session_id : String
  status : StatusType
  summary : String
  cwd : String
  buttons : Option (List String) := none
deriving DecidableEq, Repr

/-- models.py `NotifyResponse`. -/
structure NotifyResponse where
  ok : Bool
  thread_id : Option Int := none
  message_id : Option Int := none
  error : Option String := none
deriving DecidableEq, Repr

/-- models.py `ReplyResponse`. -/
structure ReplyResponse where
  has_reply : Bool
  reply : Option String := none
  action : Option ActionType := none
deriving DecidableEq, Repr

/-- models.py `AckResponse`. -/
structure AckResponse where
  ok : Bool
  error : Option String := none
deriving DecidableEq, Repr

/-- Python call semantics of main.py line 130,
`store.update_thread_id(request.session_id, message_id, thread_id, chat_id)`:
store.py's `update_thread_id` accepts only
`(self, session_id, message_id, thread_id)`, so this four-argument call
raises `TypeError` before the store is touched. -/
def update_thread_id_call4 (st : SessionStore) (now : Int)
    (session_id : String) (message_id thread_id chat_id : Int) :
    Except String SessionStore :=
  Except.error
    "TypeError: update_thread_id() takes 4 positional arguments but 5 were given"

/-- main.py `notify` endpoint body.  `sendResult` is the outcome of
`bot.send_notification` — `(message_id, thread_id, chat_id)` on success,
the raised exception's text on failure — and `botPresent` models
`if bot:`.  The whole body runs inside `try/except Exception`, which
converts any raise into `NotifyResponse(ok=False, error=str(e))`. -/
def notify (st : SessionStore) (now : Int) (req : NotifyRequest)
    (botPresent : Bool) (sendResult : Except String (Int × Int × Int)) :
    SessionStore × NotifyResponse :=
  let st1 := (create_session st now req.session_id 0 req.cwd).2
  if botPresent then
    match sendResult with
    | Except.error e => (st1, { ok := false, error := some e })
    | Except.ok (message_id, thread_id, chat_id) =>
        match update_thread_id_call4 st1 now req.session_id
            message_id thread_id chat_id with
        | Except.error e => (st1, { ok := false, error := some e })
        | Except.ok st2 =>
            (st2, { ok := true, message_id := some message_id,
                    thread_id := some thread_id })
  else (st1, { ok := true })

/-- main.py `get_reply` endpoint body; `Except.error 404` models
`HTTPException(status_code=404)`.  Python's `if session.pending_reply:`
is false both for `None` and for the empty string. -/
def get_reply (st : SessionStore) (session_id : String) :
    Except Nat ReplyResponse :=
  match get_session st session_id with
  | none => Except.error 404
  | some session =>
      match session.pending_reply with
      | some reply =>
          if reply = "" then Except.ok { has_reply := false }
          else
            Except.ok { has_reply := true, reply := some reply,
                        action := session.action }
      | none => Except.ok { has_reply := false }

/-- main.py `ack_reply` endpoint body.  `sendAckRaises` models
`bot.send_ack` raising on the platform call; main.py wraps it in no
`try/except`, so the raise propagates to the caller after `clear_reply`
has already run.  The first component is the store left behind in every
outcome. -/
def ack_reply (st : SessionStore) (now : Int) (session_id : String)
    (botPresent : Bool) (sendAckRaises : Bool) :
    SessionStore × Except String AckResponse :=
  match get_session st session_id with
  | none => (st, Except.error "404 Session not found")
  | some _session =>
      let st1 := clear_reply st now session_id
      if botPresent && sendAckRaises then
        (st1, Except.error "send_ack raised")
      else (st1, Except.ok { ok := true })

/-- The store operations named in the reachability claim about the
thread index. -/
inductive StoreOp where
  | createSession (now : Int) (session_id : String) (chat_id : Int) (cwd : String)
  | updateThreadId (now : Int) (session_id : String) (message_id thread_id : Int)
  | setReply (now : Int) (session_id : String) (reply : String) (action : ActionType)
  | clearReply (now : Int) (session_id : String)
  | deleteSession (session_id : String)
  | cleanupExpired (now ttl : Int)
deriving DecidableEq, Repr

/-- One store operation, discarding returned values. -/
def applyOp (st : SessionStore) : StoreOp → SessionStore
  | .createSession now sid chat cwd => (create_session st now sid chat cwd).2
  | .updateThreadId now sid mid tid => update_thread_id st now sid mid tid
  | .setReply now sid reply action => set_reply st now sid reply action
  | .clearReply now sid => clear_reply st now sid
  | .deleteSession sid => (delete_session st sid).2
  | .cleanupExpired now ttl => (cleanup_expired st now ttl).2

/-- Run a sequence of store operations from the initial empty store. -/
def runOps (ops : List StoreOp) : SessionStore :=
  ops.foldl applyOp emptyStore

/-- Side condition for the amended thread-index claim: every
`updateThreadId` uses a nonzero thread id and does not rebind a session
whose thread id is already set to a different value. -/
def opOK (st : SessionStore) : StoreOp → Bool
  | .updateThreadId _ sid _ tid =>
      !decide (tid = 0) &&
        (match dictGet st.sessions sid with
         | some s => decide (s.thread_id = none) || decide (s.thread_id = some tid)
         | none => true)
  | _ => true

/-- `opOK` holds at every step of the sequence. -/
def opsOK : SessionStore → List StoreOp → Bool
  | _, [] => true
  | st, op :: rest => opOK st op && opsOK (applyOp st op) rest

/-- Consistency of the secondary thread index with the primary map:
every index entry points at a live session whose `thread_id` is exactly
the index key, and no live session carries thread id `0`. -/
def ThreadIndexInv (st : SessionStore) : Prop :=
  (∀ t sid, dictGet st.thread_to_session t = some sid →
      ∃ r, dictGet st.sessions sid = some r ∧ r.thread_id = some t) ∧
  (∀ sid r, dictGet st.sessions sid = some r → r.thread_id ≠ some 0)

/-- Representation invariant of a Python dict: its keys are distinct. -/
def WFStore (st : SessionStore) : Prop :=
  (st.sessions.map Prod.fst).Nodup

/- Concrete stores and inputs used by the scenario evaluations and the
witnesses below. -/

/-- The spec's listWaitingSessions scenario: create(`s1`, chatId=0),
create(`s2`, chatId=12345), setReply(`s2`, "done", DONE). -/
def c1_store : SessionStore :=
  runOps [.createSession 0 "s1" 0 "/a",
          .createSession 1 "s2" 12345 "/b",
          .setReply 2 "s2" "done" ActionType.DONE]

/-- A one-session store whose session `s1` has `chat_id = 0`. -/
def c2_store : SessionStore :=
  runOps [.createSession 0 "s1" 0 "/a"]

/-- The record held by `c2_store` under `s1`. -/
def c2_record : SessionData :=
  { session_id := "s1", chat_id := 0, cwd := "/a",
    created_at := 0, updated_at := 0 }

/-- A notify request as sent by the Claude Code hook. -/
def c3_request : NotifyRequest :=
  { session_id := "s1", status := StatusType.COMPLETED,
    summary := "done", cwd := "/a" }

/-- Rebinding a session's thread id: the old index entry survives. -/
def c4_ops : List StoreOp :=
  [.createSession 0 "s1" 0 "/a",
   .updateThreadId 1 "s1" 100 200,
   .updateThreadId 2 "s1" 101 300]

/-- A well-behaved operation sequence assigning thread id 200 once. -/
def c4w_ops : List StoreOp :=
  [.createSession 0 "s1" 0 "/a",
   .updateThreadId 1 "s1" 100 200]

/-- The record reachable by `c4w_ops`. -/
def c4w_record : SessionData :=
  { session_id := "s1", chat_id := 0, message_id := some 100,
    thread_id := some 200, cwd := "/a", created_at := 0, updated_at := 1 }

/-- An expired session `d` with thread id `0` whose index slot has been
overwritten by a fresh session `a` with the same thread id. -/
def c6_store : SessionStore :=
  runOps [.createSession 0 "d" 5 "/y",
          .updateThreadId 0 "d" 2 0,
          .createSession 100 "a" 5 "/x",
          .updateThreadId 100 "a" 1 0]

/-- A well-formed two-session store for the cleanup witness: `old` was
created at time 0, `fresh` at time 100. -/
def c6w_store : SessionStore :=
  runOps [.createSession 0 "old" 5 "/y",
          .updateThreadId 0 "old" 2 200,
          .createSession 100 "fresh" 5 "/x"]

/-- The record held by `c6w_store` under `old`. -/
def c6w_record : SessionData :=
  { session_id := "old", chat_id := 5, message_id := some 2,
    thread_id := some 200, cwd := "/y", created_at := 0, updated_at := 0 }

/-- A one-session store with nontrivial fields for the idempotence and
reply witnesses. -/
def c7_store : SessionStore :=
  runOps [.createSession 0 "s1" 7 "/a",
          .updateThreadId 1 "s1" 100 200]

/-- The record held by `c7_store` under `s1`. -/
def c7_record : SessionData :=
  { session_id := "s1", chat_id := 7, message_id := some 100,
    thread_id := some 200, cwd := "/a", created_at := 0, updated_at := 1 }

/-- `c7_store` with a pending CONTINUE reply "go" on `s1`. -/
def c10_store : SessionStore :=
  set_reply c7_store 2 "s1" "go" ActionType.CONTINUE

/-- The record held by `c10_store` under `s1`. -/
def c10_record : SessionData :=
  { c7_record with
    pending_reply := some "go",
    action := some ActionType.CONTINUE,
    updated_at := 2 }

/-! ## Theorems -/

section DictLemmas

variable {K V : Type} [DecidableEq K]

theorem dictGet_set (d : List (K × V)) (k k' : K) (v : V) :
    dictGet (dictSet d k v) k' = if k = k' then some v else dictGet d k' := by
  induction d with
  | nil => by_cases h : k = k' <;> simp [dictSet, dictGet, h]
  | cons p rest ih =>
      by_cases h1 : p.1 = k
      · by_cases h2 : k = k' <;> simp [dictSet, dictGet, h1, h2]
      · by_cases h2 : k = k'
        · subst h2
          simp [dictSet, dictGet, h1, ih]
        · simp [dictSet, dictGet, h1, ih, h2]

theorem dictGet_pop (d : List (K × V)) (k k' : K) :
    dictGet (dictPop d k) k' = if k = k' then none else dictGet d k' := by
  induction d with
  | nil => by_cases h : k = k' <;> simp [dictPop, dictGet, h]
  | cons p rest ih =>
      by_cases h1 : p.1 = k
      · have hd : dictPop (p :: rest) k = dictPop rest k := by
          simp [dictPop, List.filter, h1]
        rw [hd]
        by_cases h2 : k = k'
        · simpa [h2] using ih
        · have h3 : p.1 ≠ k' := fun hc => h2 (h1 ▸ hc)
          simp [ih, h2, dictGet, h3]
      · have hd : dictPop (p :: rest) k = p :: dictPop rest k := by
          simp [dictPop, List.filter, h1]
        rw [hd]
        by_cases h2 : k = k'
        · subst h2
          simp [dictGet, h1, ih]
        · by_cases h3 : p.1 = k' <;> simp [dictGet, h3, ih, h2]

theorem dictGet_mem {d : List (K × V)} {k : K} {v : V}
    (h : dictGet d k = some v) : (k, v) ∈ d := by
  induction d with
  | nil => simp [dictGet] at h
  | cons p rest ih =>
      obtain ⟨pk, pv⟩ := p
      by_cases h1 : pk = k
      · simp only [dictGet, h1, if_pos rfl] at h
        subst h1
        cases h
        exact List.mem_cons_self _ _
      · simp only [dictGet] at h
        rw [if_neg h1] at h
        exact List.mem_cons_of_mem _ (ih h)

theorem dictGet_of_mem_of_nodup {d : List (K × V)}
    (hnd : (d.map Prod.fst).Nodup) {k : K} {v : V} (h : (k, v) ∈ d) :
    dictGet d k = some v := by
  induction d with
  | nil => simp at h
  | cons p rest ih =>
      obtain ⟨pk, pv⟩ := p
      simp only [List.map_cons, List.nodup_cons] at hnd
      rcases List.mem_cons.mp h with h0 | h0
      · cases h0
        simp [dictGet]
      · have hk : pk ≠ k := by
          intro hc
          exact hnd.1 (hc ▸ (List.mem_map.mpr ⟨(k, v), h0, rfl⟩))
        simp only [dictGet]
        rw [if_neg hk]
        exact ih hnd.2 h0

end DictLemmas

/-- C1: in the spec scenario create(s1, chatId=0), create(s2, chatId=12345),
setReply(s2, "done", DONE), the code's `list_waiting_sessions(12345)`
returns the empty list — not `[s1]` as claimed — although `s1` is present,
has no pending reply and has `chat_id = 0`: store.py filters on
`session.chat_id == chat_id` only, with no `chat_id == 0` disjunct. -/
theorem C1_list_waiting_scenario :
    list_waiting_sessions c1_store 12345 = [] ∧
    (get_session c1_store "s1").map SessionData.pending_reply = some none ∧
    (get_session c1_store "s1").map SessionData.chat_id = some 0 ∧
    (get_session c1_store "s2").map SessionData.pending_reply
      = some (some "done") := by
  decide

/-- C2: `update_chat_id` (modelled from the spec, see its doc comment)
is a no-op on a session whose current `chat_id` is nonzero and sets
`chat_id` exactly when the current value is `0`; it is a total function
of the store. -/
theorem C2_update_chat_id_only_from_zero (st : SessionStore) (sid : String)
    (c : Int) (s : SessionData) (h : get_session st sid = some s) :
    (s.chat_id ≠ 0 → update_chat_id st sid c = st) ∧
    (s.chat_id = 0 → update_chat_id st sid c =
        { st with
          sessions := dictSet st.sessions sid { s with chat_id := c } }) := by
  unfold get_session at h
  simp only [update_chat_id, h]
  constructor
  · intro hne
    rw [if_neg hne]
  · intro h0
    rw [if_pos h0]

theorem C2_witness :
    update_chat_id c2_store "s1" 12345
      = { c2_store with
          sessions :=
            dictSet c2_store.sessions "s1" { c2_record with chat_id := 12345 } } :=
  (C2_update_chat_id_only_from_zero c2_store "s1" 12345 c2_record (by decide)).2 rfl

/-- C3: on the success path — the platform send succeeds, returning
message, thread and chat ids — main.py's `notify` does NOT return a
success result: the recording call
`store.update_thread_id(sid, message_id, thread_id, chat_id)` raises
`TypeError` (store.py's method has no fourth parameter), the
`try/except` converts it into `ok=False` with the error string, and
nothing is recorded in the thread index.  The failure path does return
a structured `ok=False` result as claimed. -/
theorem C3_notify_success_send_yields_failure :
    (notify emptyStore 0 c3_request true (Except.ok (100, 100, 555))).2
      = { ok := false,
          error := some "TypeError: update_thread_id() takes 4 positional arguments but 5 were given" } ∧
    (notify emptyStore 0 c3_request true (Except.ok (100, 100, 555))).1.thread_to_session = [] ∧
    (notify emptyStore 0 c3_request true (Except.error "Telegram send failed")).2
      = { ok := false, error := some "Telegram send failed" } := by
  decide

/-- C5: store.py's `update_thread_id` takes no chat-id argument and
never adopts one: it leaves every session's `chat_id` unchanged.
(main.py line 130 nevertheless passes a fourth `chat_id` argument,
which raises `TypeError` at runtime — see `update_thread_id_call4`.) -/
theorem C5_update_thread_id_never_adopts_chat_id (st : SessionStore)
    (now : Int) (sid : String) (mid tid : Int) (sid' : String) :
    (get_session (update_thread_id st now sid mid tid) sid').map SessionData.chat_id
      = (get_session st sid').map SessionData.chat_id := by
  unfold get_session update_thread_id
  cases h : dictGet st.sessions sid with
  | none => rfl
  | some s =>
      simp only [dictGet_set]
      by_cases h2 : sid = sid'
      · subst h2
        rw [if_pos rfl, h]
        rfl
      · rw [if_neg h2]

/-- C7: `create_session` on an existing session id returns the stored
record with only `updated_at` advanced — `cwd`, `chat_id`, `created_at`
and all other fields keep their original values regardless of the new
arguments — re-stores exactly that record, touches no other session and
leaves the thread index unchanged. -/
theorem C7_create_session_idempotent (st : SessionStore) (now : Int)
    (sid : String) (chat' : Int) (cwd' : String) (r : SessionData)
    (h : get_session st sid = some r) :
    (create_session st now sid chat' cwd').1 = { r with updated_at := now } ∧
    get_session (create_session st now sid chat' cwd').2 sid
      = some { r with updated_at := now } ∧
    (∀ sid', sid' ≠ sid →
        get_session (create_session st now sid chat' cwd').2 sid'
          = get_session st sid') ∧
    (create_session st now sid chat' cwd').2.thread_to_session
      = st.thread_to_session := by
  unfold get_session at h
  unfold get_session create_session
  rw [h]
  refine ⟨rfl, ?_, ?_, rfl⟩
  · simp [dictGet_set]
  · intro sid' hne
    simp only [dictGet_set]
    rw [if_neg (fun hh => hne hh.symm)]

theorem C7_witness :
    get_session (create_session c7_store 9 "s1" 999 "/zzz").2 "s1"
      = some { c7_record with updated_at := 9 } :=
  (C7_create_session_idempotent c7_store 9 "s1" 999 "/zzz" c7_record (by decide)).2.1

/-- C8 counterexample: the reply payload is NOT the literal input text:
for the input `"hello "` the classifier returns CONTINUE with payload
`"hello"`, the whitespace-stripped text. -/
theorem C8_strip_counterexample :
    (parse_user_input "hello ").1 = ActionType.CONTINUE ∧
    (parse_user_input "hello ").2 ≠ "hello " := by
  decide

/-- C8 (amended): classification is fixed case-insensitive keyword
matching over the whitespace-stripped text — DONE exactly on the
completion keywords, CANCEL exactly on the cancellation keywords
(which include "no"), CONTINUE on everything else — and the reply
payload is always the stripped input text (not the literal input). -/
theorem C8_classification (text : String) :
    ((parse_user_input text).2 = pyStrip text) ∧
    ((parse_user_input text).1 = ActionType.DONE ↔
        pyLower (pyStrip text) ∈ doneKeywords) ∧
    ((parse_user_input text).1 = ActionType.CANCEL ↔
        pyLower (pyStrip text) ∈ cancelKeywords ∧
        pyLower (pyStrip text) ∉ doneKeywords) ∧
    ((parse_user_input text).1 = ActionType.CONTINUE ↔
        pyLower (pyStrip text) ∉ doneKeywords ∧
        pyLower (pyStrip text) ∉ cancelKeywords) := by
  unfold parse_user_input
  by_cases h1 : pyLower (pyStrip text) ∈ doneKeywords
  · simp [h1]
  · by_cases h2 : pyLower (pyStrip text) ∈ cancelKeywords <;> simp [h1, h2]

/-- C9: a pending reply that is the empty string (as set when an
inbound message has no text) is reported by the query endpoint as
`has_reply = false` with no reply and no action — the same response as
"no reply yet" — even though `pending_reply` is non-null, and the
session is no longer listed as waiting for any chat id. -/
theorem C9_empty_reply_invisible (st : SessionStore) (now : Int)
    (sid : String) (a : ActionType) (r : SessionData)
    (h : get_session st sid = some r) :
    get_reply (set_reply st now sid "" a) sid
      = Except.ok { has_reply := false } ∧
    get_session (set_reply st now sid "" a) sid
      = some { r with
          pending_reply := some "", action := some a, updated_at := now } ∧
    (∀ c, { r with
        pending_reply := some "", action := some a, updated_at := now }
          ∉ list_waiting_sessions (set_reply st now sid "" a) c) := by
  unfold get_session at h
  have hset : set_reply st now sid "" a
      = { st with
          sessions :=
            dictSet st.sessions sid
              { r with
                pending_reply := some "",
                action := some a,
                updated_at := now } } := by
    simp only [set_reply, h]
  have hget : get_session (set_reply st now sid "" a) sid
      = some { r with
          pending_reply := some "", action := some a, updated_at := now } := by
    rw [hset]
    unfold get_session
    simp [dictGet_set]
  refine ⟨?_, hget, ?_⟩
  · unfold get_reply
    rw [hget]
    rfl
  · intro c hmem
    have hp := List.of_mem_filter hmem
    simp at hp

theorem C9_witness :
    get_reply (set_reply c7_store 9 "s1" "" ActionType.CONTINUE) "s1"
      = Except.ok { has_reply := false } :=
  (C9_empty_reply_invisible c7_store 9 "s1" ActionType.CONTINUE c7_record
    (by decide)).1

/-- C10: the acknowledge endpoint clears the pending reply and action
before the acknowledgment send; when that send raises, the caller gets
the propagated error while the reply is already cleared in the store. -/
theorem C10_ack_clears_reply_before_failed_send (st : SessionStore)
    (now : Int) (sid : String) (r : SessionData)
    (h : get_session st sid = some r) :
    (ack_reply st now sid true true).2 = Except.error "send_ack raised" ∧
    get_session (ack_reply st now sid true true).1 sid
      = some { r with
          pending_reply := none, action := none, updated_at := now } := by
  unfold ack_reply
  rw [h]
  unfold get_session at h
  refine ⟨rfl, ?_⟩
  simp only []
  unfold clear_reply get_session
  rw [h]
  simp [dictGet_set]

theorem C10_witness :
    get_session (ack_reply c10_store 3 "s1" true true).1 "s1"
      = some { c10_record with
          pending_reply := none, action := none, updated_at := 3 } :=
  (C10_ack_clears_reply_before_failed_send c10_store 3 "s1" c10_record
    (by decide)).2

/-! ### Thread-index consistency (claim C4) -/

theorem removeSession_sessions (st : SessionStore) (sid : String) :
    (removeSession st sid).sessions = dictPop st.sessions sid := by
  unfold removeSession
  cases hx : dictGet st.sessions sid
  · rfl
  · rfl

theorem removeSession_sessions_get (st : SessionStore) (sid k : String) :
    dictGet (removeSession st sid).sessions k
      = if sid = k then none else dictGet st.sessions k := by
  rw [removeSession_sessions, dictGet_pop]

theorem removeSession_index_subset (st : SessionStore) (sid : String)
    (t : Int) (x : String)
    (h : dictGet (removeSession st sid).thread_to_session t = some x) :
    dictGet st.thread_to_session t = some x := by
  unfold removeSession at h
  cases hx : dictGet st.sessions sid with
  | none => rw [hx] at h; exact h
  | some s =>
      rw [hx] at h
      simp only [] at h
      cases ht : s.thread_id with
      | none => rw [ht] at h; exact h
      | some t0 =>
          rw [ht] at h
          simp only [] at h
          by_cases h3 : t0 = 0
          · rw [if_pos h3] at h; exact h
          · rw [if_neg h3] at h
            rw [dictGet_pop] at h
            by_cases h4 : t0 = t
            · rw [if_pos h4] at h; cases h
            · rw [if_neg h4] at h; exact h

theorem removeSession_index_pops {st : SessionStore} {sid : String}
    {r : SessionData} {t : Int} (hget : dictGet st.sessions sid = some r)
    (ht : r.thread_id = some t) (h0 : t ≠ 0) :
    dictGet (removeSession st sid).thread_to_session t = none := by
  unfold removeSession
  rw [hget]
  simp only [ht]
  rw [if_neg h0, dictGet_pop, if_pos rfl]

theorem threadIndexInv_removeSession {st : SessionStore}
    (hInv : ThreadIndexInv st) (sid : String) :
    ThreadIndexInv (removeSession st sid) := by
  obtain ⟨h1, h2⟩ := hInv
  constructor
  · intro t sid' hidx
    have hold := removeSession_index_subset st sid t sid' hidx
    obtain ⟨r, hr, hrt⟩ := h1 t sid' hold
    have hne : sid ≠ sid' := by
      intro he
      subst he
      have h0 : t ≠ 0 := by
        intro h00
        exact h2 sid r hr (h00 ▸ hrt)
      have hnone := removeSession_index_pops hr hrt h0
      rw [hnone] at hidx
      cases hidx
    refine ⟨r, ?_, hrt⟩
    rw [removeSession_sessions_get, if_neg hne]
    exact hr
  · intro sid' r hget
    rw [removeSession_sessions_get] at hget
    by_cases hc : sid = sid'
    · rw [if_pos hc] at hget; cases hget
    · rw [if_neg hc] at hget
      exact h2 sid' r hget

theorem threadIndexInv_dictSet_same_thread {st : SessionStore}
    (hInv : ThreadIndexInv st) {sid : String} {s s' : SessionData}
    (hx : dictGet st.sessions sid = some s)
    (hth : s'.thread_id = s.thread_id) :
    ThreadIndexInv { st with sessions := dictSet st.sessions sid s' } := by
  obtain ⟨h1, h2⟩ := hInv
  constructor
  · intro t sid' hidx
    obtain ⟨r, hr, hrt⟩ := h1 t sid' hidx
    by_cases he : sid = sid'
    · subst he
      rw [hx] at hr
      injection hr with hr
      subst hr
      refine ⟨s', by simp [dictGet_set], ?_⟩
      rw [hth]
      exact hrt
    · refine ⟨r, ?_, hrt⟩
      show dictGet (dictSet st.sessions sid s') sid' = some r
      rw [dictGet_set, if_neg he]
      exact hr
  · intro sid' r hget
    simp only [dictGet_set] at hget
    by_cases he : sid = sid'
    · rw [if_pos he] at hget
      injection hget with hget
      subst hget
      rw [hth]
      subst he
      exact h2 sid s hx
    · rw [if_neg he] at hget
      exact h2 sid' r hget

theorem threadIndexInv_insert_fresh {st : SessionStore}
    (hInv : ThreadIndexInv st) {sid : String}
    (hx : dictGet st.sessions sid = none) {s' : SessionData}
    (hth : s'.thread_id = none) :
    ThreadIndexInv { st with sessions := dictSet st.sessions sid s' } := by
  obtain ⟨h1, h2⟩ := hInv
  constructor
  · intro t sid' hidx
    obtain ⟨r, hr, hrt⟩ := h1 t sid' hidx
    by_cases he : sid = sid'
    · subst he
      rw [hx] at hr
      cases hr
    · refine ⟨r, ?_, hrt⟩
      show dictGet (dictSet st.sessions sid s') sid' = some r
      rw [dictGet_set, if_neg he]
      exact hr
  · intro sid' r hget
    simp only [dictGet_set] at hget
    by_cases he : sid = sid'
    · rw [if_pos he] at hget
      injection hget with hget
      subst hget
      rw [hth]
      simp
    · rw [if_neg he] at hget
      exact h2 sid' r hget

theorem threadIndexInv_update_thread {st : SessionStore}
    (hInv : ThreadIndexInv st) {now : Int} {sid : String} {mid tid : Int}
    (h0 : tid ≠ 0)
    (hcond : ∀ s, dictGet st.sessions sid = some s →
        s.thread_id = none ∨ s.thread_id = some tid) :
    ThreadIndexInv (update_thread_id st now sid mid tid) := by
  obtain ⟨h1, h2⟩ := hInv
  unfold update_thread_id
  cases hx : dictGet st.sessions sid with
  | none => exact ⟨h1, h2⟩
  | some s =>
      constructor
      · intro t sid' hidx
        simp only [dictGet_set] at hidx
        by_cases ht : tid = t
        · rw [if_pos ht] at hidx
          injection hidx with hidx
          subst hidx
          refine ⟨{ s with
              message_id := some mid, thread_id := some tid,
              updated_at := now }, by simp [dictGet_set], ?_⟩
          simpa using ht
        · rw [if_neg ht] at hidx
          obtain ⟨r, hr, hrt⟩ := h1 t sid' hidx
          by_cases he : sid = sid'
          · subst he
            rw [hx] at hr
            injection hr with hr
            subst hr
            rcases hcond s hx with hc | hc
            · rw [hc] at hrt
              cases hrt
            · rw [hc] at hrt
              injection hrt with hrt
              exact absurd hrt ht
          · refine ⟨r, ?_, hrt⟩
            show dictGet (dictSet st.sessions sid _) sid' = some r
            rw [dictGet_set, if_neg he]
            exact hr
      · intro sid' r hget
        simp only [dictGet_set] at hget
        by_cases he : sid = sid'
        · rw [if_pos he] at hget
          injection hget with hget
          subst hget
          simpa using h0
        · rw [if_neg he] at hget
          exact h2 sid' r hget

theorem threadIndexInv_foldl_remove (ids : List String) (st : SessionStore)
    (hInv : ThreadIndexInv st) :
    ThreadIndexInv (ids.foldl removeSession st) := by
  induction ids generalizing st with
  | nil => exact hInv
  | cons a rest ih => exact ih _ (threadIndexInv_removeSession hInv a)

theorem threadIndexInv_applyOp {st : SessionStore} (hInv : ThreadIndexInv st)
    {op : StoreOp} (hop : opOK st op = true) :
    ThreadIndexInv (applyOp st op) := by
  cases op with
  | createSession now sid chat cwd =>
      simp only [applyOp]
      unfold create_session
      cases hx : dictGet st.sessions sid with
      | some s => exact threadIndexInv_dictSet_same_thread hInv hx rfl
      | none => exact threadIndexInv_insert_fresh hInv hx rfl
  | updateThreadId now sid mid tid =>
      simp only [applyOp]
      simp only [opOK, Bool.and_eq_true] at hop
      refine threadIndexInv_update_thread hInv ?_ ?_
      · simpa using hop.1
      · intro s hs
        have h2 := hop.2
        rw [hs] at h2
        simpa using h2
  | setReply now sid reply action =>
      simp only [applyOp]
      unfold set_reply
      cases hx : dictGet st.sessions sid with
      | some s => exact threadIndexInv_dictSet_same_thread hInv hx rfl
      | none => exact hInv
  | clearReply now sid =>
      simp only [applyOp]
      unfold clear_reply
      cases hx : dictGet st.sessions sid with
      | some s => exact threadIndexInv_dictSet_same_thread hInv hx rfl
      | none => exact hInv
  | deleteSession sid =>
      simp only [applyOp, delete_session]
      exact threadIndexInv_removeSession hInv sid
  | cleanupExpired now ttl =>
      simp only [applyOp, cleanup_expired]
      exact threadIndexInv_foldl_remove _ _ hInv

theorem threadIndexInv_empty : ThreadIndexInv emptyStore :=
  ⟨fun _ _ h => Option.noConfusion h, fun _ _ h => Option.noConfusion h⟩

theorem threadIndexInv_runOps_aux (ops : List StoreOp) (st : SessionStore)
    (hInv : ThreadIndexInv st) (h : opsOK st ops = true) :
    ThreadIndexInv (ops.foldl applyOp st) := by
  induction ops generalizing st with
  | nil => exact hInv
  | cons op rest ih =>
      rw [List.foldl_cons]
      simp only [opsOK, Bool.and_eq_true] at h
      exact ih _ (threadIndexInv_applyOp hInv h.1) h.2

/-- C4 counterexample: rebinding a session's thread id from 200 to 300
leaves the stale index entry `200 -> s1` in place, so
`get_session_by_thread(200)` returns a record whose `thread_id` is 300. -/
theorem C4_counterexample :
    get_session_by_thread (runOps c4_ops) 200 ≠ none ∧
    (get_session_by_thread (runOps c4_ops) 200).map SessionData.thread_id
      ≠ some (some 200) := by
  decide

/-- C4 (amended): for every store state reachable by the listed
operations in which every `updateThreadId` uses a nonzero thread id and
never rebinds a session whose thread id is already set to a different
value, `getSessionByThread(t)` returns either null or a record whose
`thread_id` equals `t`.  (Without those restrictions the claim fails:
see the counterexample.) -/
theorem C4_thread_lookup_consistent (ops : List StoreOp)
    (h : opsOK emptyStore ops = true) (t : Int) (r : SessionData)
    (hr : get_session_by_thread (runOps ops) t = some r) :
    r.thread_id = some t := by
  have hInv : ThreadIndexInv (runOps ops) :=
    threadIndexInv_runOps_aux ops emptyStore threadIndexInv_empty h
  unfold get_session_by_thread at hr
  cases hidx : dictGet (runOps ops).thread_to_session t with
  | none => rw [hidx] at hr; cases hr
  | some sid =>
      simp only [hidx] at hr
      by_cases he : sid = ""
      · rw [if_pos he] at hr; cases hr
      · rw [if_neg he] at hr
        obtain ⟨r', hr', hrt⟩ := hInv.1 t sid hidx
        rw [hr'] at hr
        injection hr with hr
        subst hr
        exact hrt

theorem C4_witness :
    c4w_record.thread_id = some 200 :=
  C4_thread_lookup_consistent c4w_ops (by decide) 200 c4w_record (by decide)

/-! ### Expiry cleanup (claim C6) -/

section FilterLemmas

variable {K V : Type} [DecidableEq K]

theorem dictGet_filter_not_mem (d : List (K × V)) (ids : List K) (k : K) :
    dictGet (d.filter (fun p => !decide (p.1 ∈ ids))) k
      = if k ∈ ids then none else dictGet d k := by
  induction d with
  | nil => by_cases h : k ∈ ids <;> simp [dictGet, h]
  | cons p rest ih =>
      by_cases hq : p.1 ∈ ids
      · rw [show List.filter (fun x => !decide (x.1 ∈ ids)) (p :: rest)
            = List.filter (fun x => !decide (x.1 ∈ ids)) rest from by
            simp [List.filter_cons, hq]]
        rw [ih]
        by_cases hk : p.1 = k
        · subst hk
          simp [hq]
        · by_cases h2 : k ∈ ids <;> simp [h2, dictGet, hk]
      · rw [show List.filter (fun x => !decide (x.1 ∈ ids)) (p :: rest)
            = p :: List.filter (fun x => !decide (x.1 ∈ ids)) rest from by
            simp [List.filter_cons, hq]]
        by_cases hk : p.1 = k
        · subst hk
          simp [dictGet, hq]
        · simp only [dictGet]
          rw [if_neg hk, ih]
          by_cases h2 : k ∈ ids <;> simp [h2, dictGet, hk]

end FilterLemmas

theorem foldl_removeSession_sessions (ids : List String) (st : SessionStore) :
    (ids.foldl removeSession st).sessions
      = st.sessions.filter (fun p => !decide (p.1 ∈ ids)) := by
  induction ids generalizing st with
  | nil => simp
  | cons a rest ih =>
      rw [List.foldl_cons, ih, removeSession_sessions]
      unfold dictPop
      rw [List.filter_filter]
      apply List.filter_congr
      intro p _
      by_cases h1 : p.1 = a <;> by_cases h2 : p.1 ∈ rest <;> simp [h1, h2]

theorem removeSession_index_none {st : SessionStore} {t : Int}
    (h : dictGet st.thread_to_session t = none) (sid : String) :
    dictGet (removeSession st sid).thread_to_session t = none := by
  cases hx : dictGet (removeSession st sid).thread_to_session t with
  | none => rfl
  | some x =>
      have hsub := removeSession_index_subset st sid t x hx
      rw [h] at hsub
      cases hsub

theorem foldl_remove_index_none (ids : List String) (st : SessionStore)
    (t : Int) (h : dictGet st.thread_to_session t = none) :
    dictGet (ids.foldl removeSession st).thread_to_session t = none := by
  induction ids generalizing st with
  | nil => exact h
  | cons a rest ih =>
      rw [List.foldl_cons]
      exact ih _ (removeSession_index_none h a)

theorem foldl_remove_index_pops (l1 : List String) (sid : String)
    (l2 : List String) (st : SessionStore) (r : SessionData) (t : Int)
    (hget : dictGet (l1.foldl removeSession st).sessions sid = some r)
    (ht : r.thread_id = some t) (h0 : t ≠ 0) :
    dictGet ((l1 ++ sid :: l2).foldl removeSession st).thread_to_session t
      = none := by
  rw [List.foldl_append, List.foldl_cons]
  exact foldl_remove_index_none _ _ _ (removeSession_index_pops hget ht h0)

/-- C6 counterexample: a session `d`, expired at cleanup time, whose
`thread_id` is `0` and whose index slot `0` has been overwritten by the
fresh session `a`.  `cleanup_expired` removes `d` but — because
Python's `if session.thread_id:` is false for `0` — does not prune the
entry, so `getSessionByThread(0)` still resolves (to `a`) instead of
returning null as the claim requires. -/
theorem C6_counterexample :
    (get_session c6_store "d").map SessionData.created_at = some 0 ∧
    (get_session c6_store "d").map SessionData.thread_id = some (some 0) ∧
    ((0 : Int) < 100 - 50) ∧
    dictGet (cleanup_expired c6_store 100 50).2.sessions "d" = none ∧
    get_session_by_thread (cleanup_expired c6_store 100 50).2 0 ≠ none := by
  decide

/-- C6 (amended): on a well-formed store, `cleanup_expired(ttl)` removes
exactly the records with `created_at < now - ttl` (newer records survive
unchanged), returns the number removed, and for every removed record
whose `thread_id` is nonzero a subsequent `get_session_by_thread` on
that thread id returns null.  (For a removed record with `thread_id = 0`
the index entry is not pruned — see the counterexample.) -/
theorem C6_cleanup_expired_exact (st : SessionStore) (now ttl : Int)
    (hwf : WFStore st) :
    (∀ sid r, dictGet st.sessions sid = some r →
        r.created_at < now - ttl →
        dictGet (cleanup_expired st now ttl).2.sessions sid = none) ∧
    (∀ sid r, dictGet st.sessions sid = some r →
        ¬ r.created_at < now - ttl →
        dictGet (cleanup_expired st now ttl).2.sessions sid = some r) ∧
    (∀ sid r t, dictGet st.sessions sid = some r →
        r.created_at < now - ttl → r.thread_id = some t → t ≠ 0 →
        get_session_by_thread (cleanup_expired st now ttl).2 t = none) ∧
    (cleanup_expired st now ttl).1
      = (st.sessions.filter
          (fun p => decide (p.2.created_at < now - ttl))).length := by
  have hsess : (cleanup_expired st now ttl).2.sessions
      = st.sessions.filter
          (fun p => !decide (p.1 ∈ ((st.sessions.filter
              (fun q => decide (q.2.created_at < now - ttl))).map Prod.fst))) := by
    exact foldl_removeSession_sessions _ _
  have hids : ∀ sid r, dictGet st.sessions sid = some r →
      r.created_at < now - ttl →
      sid ∈ (st.sessions.filter
          (fun p => decide (p.2.created_at < now - ttl))).map Prod.fst := by
    intro sid r hget hexp
    exact List.mem_map.mpr
      ⟨(sid, r), List.mem_filter.mpr ⟨dictGet_mem hget, by simpa using hexp⟩, rfl⟩
  have hnodup : ((st.sessions.filter
      (fun p => decide (p.2.created_at < now - ttl))).map Prod.fst).Nodup :=
    List.Nodup.sublist (List.Sublist.map Prod.fst (List.filter_sublist _)) hwf
  refine ⟨?_, ?_, ?_, ?_⟩
  · intro sid r hget hexp
    rw [hsess, dictGet_filter_not_mem, if_pos (hids sid r hget hexp)]
  · intro sid r hget hexp
    have hnot : sid ∉ (st.sessions.filter
        (fun p => decide (p.2.created_at < now - ttl))).map Prod.fst := by
      intro hmem
      obtain ⟨pv, hv, he⟩ := List.mem_map.mp hmem
      have hvm := List.mem_filter.mp hv
      have hdg : dictGet st.sessions pv.1 = some pv.2 :=
        dictGet_of_mem_of_nodup hwf (by rw [Prod.mk.eta]; exact hvm.1)
      rw [he, hget] at hdg
      injection hdg with hdg
      refine hexp ?_
      rw [hdg]
      simpa using hvm.2
    rw [hsess, dictGet_filter_not_mem, if_neg hnot]
    exact hget
  · intro sid r t hget hexp hth h0
    have hmem := hids sid r hget hexp
    obtain ⟨l1, l2, hdec⟩ := List.append_of_mem hmem
    have hnd : (l1 ++ sid :: l2).Nodup := hdec ▸ hnodup
    have hnot1 : sid ∉ l1 := by
      rcases List.nodup_append.mp hnd with ⟨-, -, hdisj⟩
      intro hc
      exact hdisj hc (List.mem_cons_self _ _)
    have hget1 : dictGet (l1.foldl removeSession st).sessions sid = some r := by
      rw [foldl_removeSession_sessions, dictGet_filter_not_mem, if_neg hnot1]
      exact hget
    have hidx : dictGet (cleanup_expired st now ttl).2.thread_to_session t
        = none := by
      show dictGet (((st.sessions.filter
          (fun p => decide (p.2.created_at < now - ttl))).map Prod.fst).foldl
            removeSession st).thread_to_session t = none
      rw [hdec]
      exact foldl_remove_index_pops l1 sid l2 st r t hget1 hth h0
    unfold get_session_by_thread
    rw [hidx]
  · show ((st.sessions.filter
        (fun p => decide (p.2.created_at < now - ttl))).map Prod.fst).length
      = (st.sessions.filter
          (fun p => decide (p.2.created_at < now - ttl))).length
    exact List.length_map _ _

theorem C6_witness :
    dictGet (cleanup_expired c6w_store 100 50).2.sessions "old" = none ∧
    get_session_by_thread (cleanup_expired c6w_store 100 50).2 200 = none :=
  ⟨(C6_cleanup_expired_exact c6w_store 100 50
        (by unfold WFStore; decide)).1 "old" c6w_record
      (by decide) (by decide),
   (C6_cleanup_expired_exact c6w_store 100 50
        (by unfold WFStore; decide)).2.2.1 "old"
      c6w_record 200 (by decide) (by decide) (by decide) (by decide)⟩

end ClaudeNotify
